import Mathlib

/-!
Verification development for the loc-generator HTTP server (src/server.js).

The server's persistent state is the file system; we embed it as a finite
association list of file paths to byte contents, plus a list of existing
directory paths.  Bytes are `Nat` (each JS Buffer byte is 0..255; no claim
depends on the bound, so no modular arithmetic is needed).  JS `Date.now()`
is passed in explicitly as a `now : Nat` millisecond timestamp.  Calls into
the external ElevenLabs client and axios are opaque to the program; each
handler takes them as explicit oracle functions returning either a value or
a thrown error (`Except String`), exactly at the points the source awaits
them.
-/

set_option autoImplicit false

namespace LocGen

/-- A byte of a JS Buffer. -/
abbrev Byte := Nat

/-- File-system state: `files` maps a path to its contents, `dirs` lists the
directories that exist.  Paths are the strings the program builds. -/
structure FS where
  files : List (String × List Byte)
  dirs : List String
deriving Repr, DecidableEq

/-- Embeds `fsSync.existsSync` (src/server.js:30,150,161): true when the path
names an existing directory or file. -/
def FS.existsSync (fs : FS) (p : String) : Bool :=
  fs.dirs.contains p || (fs.files.lookup p).isSome

/-- Embeds `fs.writeFile` / `await fs.writeFile(outPath, buffer)`
(src/server.js:51): creates or overwrites the file at `p` with contents `b`. -/
def FS.writeFile (fs : FS) (p : String) (b : List Byte) : FS :=
  { fs with files := (p, b) :: fs.files.filter (fun kv => kv.1 != p) }

/-- Reading a file back (what a consumer of the returned reference observes). -/
def FS.readFile (fs : FS) (p : String) : Option (List Byte) :=
  fs.files.lookup p

/-- Embeds `fsSync.mkdirSync(d, { recursive: true })` / `fs.mkdir(..., { recursive: true })`
(src/server.js:30,151), restricted to its effect on the paths the program later
consults: it records the created directory itself.  (Implicit parent creation
is omitted: every parent the program ever consults is itself passed to mkdir
first, so no code path observes the difference.) -/
def FS.mkdirRec (fs : FS) (p : String) : FS :=
  if fs.dirs.contains p then fs else { fs with dirs := p :: fs.dirs }

/-- Embeds `fs.unlink(path)` (src/server.js:129): removes the file, or throws
(`ENOENT`) when no file exists at `path`. -/
def FS.unlink (fs : FS) (p : String) : Except String FS :=
  if (fs.files.lookup p).isSome then
    .ok { fs with files := fs.files.filter (fun kv => kv.1 != p) }
  else .error "ENOENT"

/-- JS falsiness of an optional string value (`!text`, `!voice`, `!ELEVEN_KEY`,
`!projectName`): `undefined` and the empty string are falsy. -/
def jsFalsy : Option String → Bool
  | none => true
  | some s => s == ""

/-- The environment variables the server reads (src/server.js:42,44,64):
`ELEVEN_API_KEY` and `XI_API_KEY`, each possibly unset. -/
structure Env where
  elevenApiKey : Option String
  xiApiKey : Option String
deriving Repr, DecidableEq

/-- Embeds `const ELEVEN_KEY = apiKey || process.env.XI_API_KEY`
(src/server.js:42,44): the first key when truthy, otherwise the fallback. -/
def elevenKey (env : Env) : Option String :=
  if jsFalsy env.elevenApiKey then env.xiApiKey else env.elevenApiKey

/-- `path.join(__dirname, 'public')` (src/server.js:24), with the constant
`__dirname` component abbreviated away. -/
def PUBLIC_DIR : String := "public"

/-- `path.join(PUBLIC_DIR, 'audios')` (src/server.js:25). -/
def AUDIOS_DIR : String := "public/audios"

/-- `path.join(__dirname, 'uploads')` (src/server.js:26). -/
def UPLOADS_DIR : String := "uploads"

/-- Embeds the startup loop (src/server.js:29-31):
`for (const d of paths) if (!fsSync.existsSync(d)) fsSync.mkdirSync(d, { recursive: true })`,
generalized from the literal list `[PUBLIC_DIR, AUDIOS_DIR, UPLOADS_DIR]` to
any path list.  Returns the new state together with the list of mkdir calls
actually made (the only operations in the loop that can throw). -/
def ensureDirectories (fs : FS) : List String → FS × List String
  | [] => (fs, [])
  | d :: rest =>
    if fs.existsSync d then ensureDirectories fs rest
    else
      ((ensureDirectories (fs.mkdirRec d) rest).1,
       d :: (ensureDirectories (fs.mkdirRec d) rest).2)

/-- Embeds `saveBufferToPublic` (src/server.js:49-53): writes the buffer to
`path.join(AUDIOS_DIR, filename)` and returns `path.posix.join('audios', filename)`. -/
def saveBufferToPublic (fs : FS) (buffer : List Byte) (filename : String) : FS × String :=
  (fs.writeFile (AUDIOS_DIR ++ "/" ++ filename) buffer, "audios/" ++ filename)

/-- The filename template both routes use (src/server.js:95,125):
`{category}-{Date.now()}.{ext}`, e.g. `tts-${Date.now()}.mp3`. -/
def artifactFilename (category : String) (now : Nat) (ext : String) : String :=
  category ++ "-" ++ toString now ++ "." ++ ext

/-- The spec's `writeArtifact`: filename generation (src/server.js:95,125)
followed by `saveBufferToPublic`. -/
def writeArtifact (fs : FS) (category : String) (bytes : List Byte) (now : Nat) (ext : String) :
    FS × String :=
  saveBufferToPublic fs bytes (artifactFilename category now ext)

/-- A finite upstream chunk stream as the route consumes it
(src/server.js:92): it either yields all its chunks and completes, or yields
some chunks and then raises with a message. -/
inductive UpstreamStream where
  | complete (chunks : List (List Byte))
  | raises (receivedSoFar : List (List Byte)) (msg : String)
deriving Repr, DecidableEq

/-- Embeds the accumulation loop
`for await (const ch of gen) chunks.push(...)` (src/server.js:91-92): on
completion all chunks in production order; on a mid-stream raise the locally
accumulated chunks are discarded and the error propagates. -/
def consumeChunks : UpstreamStream → Except String (List (List Byte))
  | .complete cs => .ok cs
  | .raises _ msg => .error msg

/-- The spec's `writeArtifactFromChunks`: the chunk-accumulation-and-write
slice of the routes (src/server.js:91-96), generalized only over the literal
category and extension (`"tts"`/`"mp3"` there).  `Buffer.concat(chunks)` is
`List.flatten`. -/
def writeArtifactFromChunks (fs : FS) (category : String) (stream : UpstreamStream)
    (now : Nat) (ext : String) : Except String (FS × String) :=
  match consumeChunks stream with
  | .error msg => .error msg
  | .ok cs => .ok (saveBufferToPublic fs cs.flatten (artifactFilename category now ext))

/-- An HTTP response as the handlers build it (`res.status(...).json({...})`;
`res.json` alone is status 200).  Fields absent from a given JSON body stay
at their defaults. -/
structure HttpResponse where
  status : Nat
  ok : Bool := false
  error : Option String := none
  details : Option String := none
  audioUrl : Option String := none
  message : Option String := none
deriving Repr, DecidableEq

/-- The JSON body of a `/api/generateAudio` request (src/server.js:58), kept
to the fields that reach a control-flow decision or the upstream call; the
numeric `stability`/`similarity`/`style` shaping (src/server.js:70-85) only
populates the opaque upstream options and is folded into the oracle. -/
structure GenBody where
  text : Option String
  voice : Option String
deriving Repr, DecidableEq

/-- Embeds the POST `/api/generateAudio` handler (src/server.js:56-103).
`voicesGetAll` stands for `new ElevenLabsClient({apiKey}).voices.getAll()`
(src/server.js:64-65) and `generate` for `client.generate(opts)`
(src/server.js:88), each receiving the credential and inputs the code passes
and returning a value or a thrown error; the `try/catch` converts any throw
into a 500 response (src/server.js:99-102).  `new ElevenLabsClient(...)`
always yields an object, so the `if (!client)` guard (src/server.js:68) is
embedded as a test of the constant false. -/
def generateAudio (env : Env) (fs : FS) (body : GenBody)
    (voicesGetAll : Option String → Except String (List String))
    (generate : Option String → Option String → String → Except String UpstreamStream)
    (now : Nat) : HttpResponse × FS :=
  if jsFalsy body.text then
    ({ status := 400, error := some "Texto é obrigatório" }, fs)
  else
    -- const client = new ElevenLabsClient({ apiKey: process.env.ELEVEN_API_KEY });
    let clientIsFalsy := false
    match voicesGetAll env.elevenApiKey with
    | .error e => ({ status := 500, error := some "Erro ao gerar áudio", details := some e }, fs)
    | .ok _voices =>
      if clientIsFalsy then
        ({ status := 500, error := some "ElevenLabs API key não configurada" }, fs)
      else
        match generate env.elevenApiKey body.voice (body.text.getD "") with
        | .error e =>
          ({ status := 500, error := some "Erro ao gerar áudio", details := some e }, fs)
        | .ok stream =>
          match writeArtifactFromChunks fs "tts" stream now "mp3" with
          | .error e =>
            ({ status := 500, error := some "Erro ao gerar áudio", details := some e }, fs)
          | .ok result =>
            ({ status := 200, ok := true, audioUrl := some result.2 }, result.1)

/-- A `/api/speech-to-speech` request after multer: `filePath` is
`req.file.path` when a file arrived (src/server.js:108,113), `voice` the
multipart field (src/server.js:109). -/
structure S2SRequest where
  filePath : Option String
  voice : Option String
deriving Repr, DecidableEq

/-- Embeds the POST `/api/speech-to-speech` handler (src/server.js:106-136).
`axiosPostS2S` stands for the `axios.post(stsUrl, form, ...)` call
(src/server.js:114-124) including its read of the uploaded file, given the
credential, voice and input path, returning the response bytes or a thrown
error.  The third component of the result is the list of `console.error`
messages the handler emitted; note the unlink `catch (e) {}`
(src/server.js:129) emits none. -/
def speechToSpeech (env : Env) (fs : FS) (req : S2SRequest)
    (axiosPostS2S : Option String → String → String → Except String (List Byte))
    (now : Nat) : HttpResponse × FS × List String :=
  match req.filePath with
  | none =>
    ({ status := 400, error := some "Arquivo de áudio é obrigatório (field: audio)" }, fs, [])
  | some inputPath =>
    if jsFalsy req.voice then
      ({ status := 400, error := some "voice é obrigatório" }, fs, [])
    else if jsFalsy (elevenKey env) then
      ({ status := 500, error := some "ElevenLabs API key não configurada" }, fs, [])
    else
      match axiosPostS2S (elevenKey env) (req.voice.getD "") inputPath with
      | .error e =>
        ({ status := 500, error := some "Erro no speech-to-speech", details := some e }, fs,
         ["speech-to-speech error: " ++ e])
      | .ok outBuffer =>
        let saved := saveBufferToPublic fs outBuffer (artifactFilename "s2s" now "mp3")
        -- try { await fs.unlink(inputPath); } catch (e) {}
        let fs2 := match saved.1.unlink inputPath with
          | .ok f => f
          | .error _ => saved.1
        ({ status := 200, ok := true, audioUrl := some saved.2 }, fs2, [])

/-- The character class kept by the sanitizer regex `/[^a-z0-9-_]/gi`
(src/server.js:149): ASCII letters (the `i` flag), digits, `-` and `_`. -/
def isAllowedChar (c : Char) : Bool :=
  (decide (97 ≤ c.toNat) && decide (c.toNat ≤ 122)) ||
  (decide (65 ≤ c.toNat) && decide (c.toNat ≤ 90)) ||
  (decide (48 ≤ c.toNat) && decide (c.toNat ≤ 57)) ||
  c == '-' || c == '_'

/-- Embeds `projectName.replace(/[^a-z0-9-_]/gi, '_')` (src/server.js:149):
every character outside the class becomes `_`. -/
def sanitizeName (s : String) : String :=
  ⟨s.data.map (fun c => if isAllowedChar c then c else '_')⟩

/-- Embeds the POST `/api/createProject` handler (src/server.js:145-157):
400 on a falsy name; the "Projeto já existe." signal, touching nothing, when
the sanitized folder already exists; otherwise mkdir and the success message. -/
def createProject (fs : FS) (projectName : Option String) : HttpResponse × FS :=
  if jsFalsy projectName then
    ({ status := 400, error := some "projectName é obrigatório" }, fs)
  else
    let pn := projectName.getD ""
    let projectFolderPath := PUBLIC_DIR ++ "/" ++ sanitizeName pn
    if fs.existsSync projectFolderPath then
      ({ status := 200, message := some "Projeto já existe." }, fs)
    else
      ({ status := 200,
         message := some ("Pasta do projeto \x27" ++ pn ++ "\x27 criada com sucesso!") },
       fs.mkdirRec projectFolderPath)

/-! ## Helper lemmas -/

/-- Looking up a key different from the filtered-out one is unchanged. -/
theorem lookup_filter_ne {l : List (String × List Byte)} {p q : String} (h : q ≠ p) :
    (l.filter (fun kv => kv.1 != p)).lookup q = l.lookup q := by
  induction l with
  | nil => rfl
  | cons kv t ih =>
    rcases kv with ⟨k, v⟩
    by_cases hp : k = p
    · have hb : ((k, v).1 != p) = false := by simp [hp]
      have hq : (q == k) = false := by simp [hp, h]
      simp [List.filter_cons, hb, List.lookup, hq, ih]
    · have hb : ((k, v).1 != p) = true := by simp [hp]
      by_cases hqk : q = k
      · subst hqk
        simp [List.filter_cons, hb, List.lookup]
      · have hq : (q == k) = false := by simp [hqk]
        simp [List.filter_cons, hb, List.lookup, hq, ih]

/-- Reading back the path just written yields the full buffer. -/
theorem readFile_writeFile_self (fs : FS) (p : String) (b : List Byte) :
    (fs.writeFile p b).readFile p = some b := by
  simp [FS.writeFile, FS.readFile, List.lookup]

/-- Writing one path leaves every other path unchanged. -/
theorem readFile_writeFile_ne (fs : FS) {p q : String} (b : List Byte) (h : q ≠ p) :
    (fs.writeFile p b).readFile q = fs.readFile q := by
  have hq : (q == p) = false := by simp [h]
  simp [FS.writeFile, FS.readFile, List.lookup, hq, lookup_filter_ne h]

/-- `mkdirSync` never removes an existing path. -/
theorem existsSync_mkdirRec_mono {fs : FS} {p d : String} (h : fs.existsSync d = true) :
    (fs.mkdirRec p).existsSync d = true := by
  unfold FS.mkdirRec
  by_cases hp : fs.dirs.contains p = true
  · rw [if_pos hp]; exact h
  · rw [if_neg hp]
    simp only [FS.existsSync, Bool.or_eq_true, List.contains_cons] at h ⊢
    tauto

/-- After `mkdirSync p` the path `p` exists. -/
theorem existsSync_mkdirRec_self (fs : FS) (p : String) :
    (fs.mkdirRec p).existsSync p = true := by
  unfold FS.mkdirRec
  by_cases hp : fs.dirs.contains p = true
  · rw [if_pos hp]
    simp only [FS.existsSync, Bool.or_eq_true]
    exact Or.inl hp
  · rw [if_neg hp]
    simp [FS.existsSync]

/-- The startup loop never removes an existing path. -/
theorem existsSync_ensureDirectories_mono {d : String} :
    ∀ (ps : List String) (fs : FS), fs.existsSync d = true →
      ((ensureDirectories fs ps).1).existsSync d = true := by
  intro ps
  induction ps with
  | nil => intro fs h; exact h
  | cons p rest ih =>
    intro fs h
    simp only [ensureDirectories]
    by_cases hp : fs.existsSync p = true
    · simpa [hp] using ih fs h
    · simp only [Bool.not_eq_true] at hp
      simp only [hp, Bool.false_eq_true, if_false]
      exact ih _ (existsSync_mkdirRec_mono h)

/-- After the startup loop every requested path exists. -/
theorem existsSync_ensureDirectories_mem {d : String} :
    ∀ (ps : List String) (fs : FS), d ∈ ps →
      ((ensureDirectories fs ps).1).existsSync d = true := by
  intro ps
  induction ps with
  | nil => intro fs h; cases h
  | cons p rest ih =>
    intro fs h
    simp only [ensureDirectories]
    by_cases hp : fs.existsSync p = true
    · rcases List.mem_cons.mp h with rfl | hmem
      · simpa [hp] using existsSync_ensureDirectories_mono rest fs hp
      · simpa [hp] using ih fs hmem
    · simp only [Bool.not_eq_true] at hp
      simp only [hp, Bool.false_eq_true, if_false]
      rcases List.mem_cons.mp h with rfl | hmem
      · exact existsSync_ensureDirectories_mono rest _ (existsSync_mkdirRec_self fs d)
      · exact ih _ hmem

/-- When every requested path already exists the loop does nothing and makes
no mkdir call. -/
theorem ensureDirectories_noop :
    ∀ (ps : List String) (fs : FS), (∀ d ∈ ps, fs.existsSync d = true) →
      ensureDirectories fs ps = (fs, []) := by
  intro ps
  induction ps with
  | nil => intro fs _; rfl
  | cons p rest ih =>
    intro fs h
    have hp : fs.existsSync p = true := h p (List.mem_cons_self p rest)
    simp only [ensureDirectories, hp, if_true]
    exact ih fs (fun d hd => h d (List.mem_cons_of_mem p hd))

/-- A path that already exists is never mkdir-ed by the loop. -/
theorem ensureDirectories_skips_existing :
    ∀ (ps : List String) (fs : FS) (d : String), fs.existsSync d = true →
      d ∉ (ensureDirectories fs ps).2 := by
  intro ps
  induction ps with
  | nil => intro fs d _ hmem; cases hmem
  | cons p rest ih =>
    intro fs d h
    simp only [ensureDirectories]
    by_cases hp : fs.existsSync p = true
    · simp only [hp, if_true]
      exact ih fs d h
    · simp only [Bool.not_eq_true] at hp
      simp only [hp, Bool.false_eq_true, if_false]
      intro hmem
      rcases List.mem_cons.mp hmem with rfl | hmem2
      · simp [h] at hp
      · exact ih _ d (existsSync_mkdirRec_mono h) hmem2

/-! ## Claims -/

/-- C1: the claim is REFUTED by the code (the spec's §9 itself flags the
intent): the filename depends only on the category and `Date.now()`, so two
`writeArtifact` calls with the same category in the same millisecond return
the same reference and the second overwrites the first — one file results,
holding only the second payload. -/
theorem C1_same_tick_overwrite :
    (writeArtifact ⟨[], []⟩ "tts" [1] 111 "mp3").2
        = (writeArtifact (writeArtifact ⟨[], []⟩ "tts" [1] 111 "mp3").1 "tts" [2] 111 "mp3").2
    ∧ (writeArtifact (writeArtifact ⟨[], []⟩ "tts" [1] 111 "mp3").1 "tts" [2] 111 "mp3").1.files
        = [("public/audios/tts-111.mp3", [2])] := ⟨rfl, rfl⟩

/-- C2: the "não configurada" 500 is unreachable in `generateAudio` — the
guard `if (!client)` tests the result of `new`, which is always truthy — so
with the credential absent the route answers 500 with the generic catch
message instead (still no file written, no crash); only `speech-to-speech`
returns the configuration-error message, with no file written. -/
theorem C2_not_configured_divergence :
    (∀ (env : Env) (fs : FS) (body : GenBody)
        (vg : Option String → Except String (List String))
        (gen : Option String → Option String → String → Except String UpstreamStream)
        (now : Nat),
        (generateAudio env fs body vg gen now).1.error = some "Erro ao gerar áudio"
        ∨ (generateAudio env fs body vg gen now).1.error = some "Texto é obrigatório"
        ∨ (generateAudio env fs body vg gen now).1.error = none)
    ∧ (∀ (fs : FS)
        (post : Option String → String → String → Except String (List Byte)) (now : Nat),
        speechToSpeech { elevenApiKey := none, xiApiKey := none } fs
            { filePath := some "uploads/a.webm", voice := some "Rachel" } post now
          = ({ status := 500, error := some "ElevenLabs API key não configurada" }, fs, []))
    ∧ generateAudio { elevenApiKey := none, xiApiKey := none } ⟨[], []⟩
        { text := some "oi", voice := none }
        (fun k => match k with | none => .error "Unauthorized" | some _ => .ok [])
        (fun _ _ _ => .error "Unauthorized") 7
      = ({ status := 500, error := some "Erro ao gerar áudio", details := some "Unauthorized" },
         ⟨[], []⟩) := by
  refine ⟨?_, ?_, ?_⟩
  · intro env fs body vg gen now
    unfold generateAudio
    cases ht : jsFalsy body.text with
    | true => simp
    | false =>
      cases hvg : vg env.elevenApiKey with
      | error e => simp
      | ok vs =>
        cases hgen : gen env.elevenApiKey body.voice (body.text.getD "") with
        | error e => simp
        | ok stream =>
          cases stream with
          | complete cs => simp [writeArtifactFromChunks, consumeChunks]
          | raises receivedSoFar msg => simp [writeArtifactFromChunks, consumeChunks]
  · intro fs post now
    rfl
  · rfl

/-- C5: a `generateAudio` request without the `text` field is answered 400
with an error body and the file system is untouched. -/
theorem C5_missing_text_400 (env : Env) (fs : FS) (voice : Option String)
    (vg : Option String → Except String (List String))
    (gen : Option String → Option String → String → Except String UpstreamStream) (now : Nat) :
    generateAudio env fs { text := none, voice := voice } vg gen now
      = ({ status := 400, error := some "Texto é obrigatório" }, fs) := rfl

/-- C7: the startup directory-provisioning loop is idempotent: a second run
on the same path set returns the state unchanged and attempts no mkdir call
(so nothing can error), and a path that already exists is skipped (treated as
success), never mkdir-ed. -/
theorem C7_ensureDirectories_idempotent (fs : FS) (ps : List String) (d : String)
    (hd : fs.existsSync d = true) :
    ensureDirectories (ensureDirectories fs ps).1 ps = ((ensureDirectories fs ps).1, [])
    ∧ d ∉ (ensureDirectories fs ps).2 := by
  constructor
  · exact ensureDirectories_noop ps _ (fun q hq => existsSync_ensureDirectories_mem ps fs hq)
  · exact ensureDirectories_skips_existing ps fs d hd

/-- C7 witness: the literal startup path list, with `public` already present. -/
theorem C7_ensureDirectories_idempotent_witness :
    ensureDirectories
        (ensureDirectories ⟨[], ["public"]⟩ ["public", "public/audios", "uploads"]).1
        ["public", "public/audios", "uploads"]
      = ((ensureDirectories ⟨[], ["public"]⟩ ["public", "public/audios", "uploads"]).1, [])
    ∧ "public" ∉ (ensureDirectories ⟨[], ["public"]⟩ ["public", "public/audios", "uploads"]).2 :=
  C7_ensureDirectories_idempotent ⟨[], ["public"]⟩ ["public", "public/audios", "uploads"]
    "public" (by decide)

/-- C3: `writeArtifactFromChunks` consumes the finite stream to completion
and writes the in-order concatenation (`Buffer.concat`) of the chunks as the
one artifact — reading the artifact path back yields exactly the flattened
chunk sequence, and every other path is untouched; when the stream raises
mid-stream the error propagates and no artifact is written: at route level
the catch answers 500 with the stream error and the file system is returned
unchanged. -/
theorem C3_chunks_order_and_propagation
    (fs : FS) (category ext q : String) (now : Nat)
    (cs pre : List (List Byte)) (msg : String)
    (t : String) (v : Option String) (env : Env)
    (vg : Option String → Except String (List String)) (vs : List String)
    (hq : q ≠ AUDIOS_DIR ++ "/" ++ artifactFilename category now ext)
    (ht : (t == "") = false)
    (hvg : vg env.elevenApiKey = .ok vs) :
    writeArtifactFromChunks fs category (.complete cs) now ext
        = .ok (fs.writeFile (AUDIOS_DIR ++ "/" ++ artifactFilename category now ext) cs.flatten,
               "audios/" ++ artifactFilename category now ext)
    ∧ (fs.writeFile (AUDIOS_DIR ++ "/" ++ artifactFilename category now ext)
          cs.flatten).readFile (AUDIOS_DIR ++ "/" ++ artifactFilename category now ext)
        = some cs.flatten
    ∧ (fs.writeFile (AUDIOS_DIR ++ "/" ++ artifactFilename category now ext)
          cs.flatten).readFile q = fs.readFile q
    ∧ writeArtifactFromChunks fs category (.raises pre msg) now ext = .error msg
    ∧ generateAudio env fs { text := some t, voice := v } vg
        (fun _ _ _ => .ok (.raises pre msg)) now
      = ({ status := 500, error := some "Erro ao gerar áudio", details := some msg }, fs) := by
  refine ⟨rfl, readFile_writeFile_self _ _ _, readFile_writeFile_ne _ _ hq, rfl, ?_⟩
  simp [generateAudio, jsFalsy, ht, hvg, writeArtifactFromChunks, consumeChunks]

/-- C3 witness: a concrete mid-stream raise reaching the route's catch. -/
theorem C3_chunks_order_and_propagation_witness :
    generateAudio { elevenApiKey := some "k", xiApiKey := none } ⟨[], []⟩
        { text := some "oi", voice := none } (fun _ => .ok [])
        (fun _ _ _ => .ok (.raises [[9]] "boom")) 5
      = ({ status := 500, error := some "Erro ao gerar áudio", details := some "boom" },
         ⟨[], []⟩) :=
  (C3_chunks_order_and_propagation ⟨[], []⟩ "tts" "mp3" "q" 5 [[1], [2]] [[9]] "boom" "oi"
      none { elevenApiKey := some "k", xiApiKey := none } (fun _ => .ok []) []
      (by decide) (by decide) rfl).2.2.2.2

/-- C6: every successful (`ok: true`) response of both provider routes
carries `audioUrl = "audios/" ++ {category}-{now}.mp3` with category `tts`
for `generateAudio` and `s2s` for `speech-to-speech`. -/
theorem C6_audioUrl_shape (env : Env) (fs : FS) (body : GenBody)
    (vg : Option String → Except String (List String))
    (gen : Option String → Option String → String → Except String UpstreamStream)
    (req : S2SRequest)
    (post : Option String → String → String → Except String (List Byte)) (now : Nat)
    (h1 : (generateAudio env fs body vg gen now).1.ok = true)
    (h2 : (speechToSpeech env fs req post now).1.ok = true) :
    (generateAudio env fs body vg gen now).1.audioUrl
        = some ("audios/" ++ artifactFilename "tts" now "mp3")
    ∧ (speechToSpeech env fs req post now).1.audioUrl
        = some ("audios/" ++ artifactFilename "s2s" now "mp3") := by
  constructor
  · by_cases ht : jsFalsy body.text = true
    · simp [generateAudio, ht] at h1
    · simp only [Bool.not_eq_true] at ht
      cases hvg : vg env.elevenApiKey with
      | error e => simp [generateAudio, ht, hvg] at h1
      | ok vs =>
        cases hgen : gen env.elevenApiKey body.voice (body.text.getD "") with
        | error e => simp [generateAudio, ht, hvg, hgen] at h1
        | ok stream =>
          cases stream with
          | raises receivedSoFar msg =>
            simp [generateAudio, ht, hvg, hgen, writeArtifactFromChunks, consumeChunks] at h1
          | complete cs =>
            simp [generateAudio, ht, hvg, hgen, writeArtifactFromChunks, consumeChunks,
              saveBufferToPublic]
  · cases hf : req.filePath with
    | none => simp [speechToSpeech, hf] at h2
    | some inputPath =>
      by_cases hv : jsFalsy req.voice = true
      · simp [speechToSpeech, hf, hv] at h2
      · simp only [Bool.not_eq_true] at hv
        by_cases hk : jsFalsy (elevenKey env) = true
        · simp [speechToSpeech, hf, hv, hk] at h2
        · simp only [Bool.not_eq_true] at hk
          cases hpost : post (elevenKey env) (req.voice.getD "") inputPath with
          | error e => simp [speechToSpeech, hf, hv, hk, hpost] at h2
          | ok outBuffer =>
            simp [speechToSpeech, hf, hv, hk, hpost, saveBufferToPublic]

/-- C6 witness: one concrete successful run of each route. -/
theorem C6_audioUrl_shape_witness :
    (generateAudio { elevenApiKey := some "k", xiApiKey := none } ⟨[], []⟩
        { text := some "oi", voice := none } (fun _ => .ok [])
        (fun _ _ _ => .ok (.complete [[1]])) 5).1.audioUrl
      = some ("audios/" ++ artifactFilename "tts" 5 "mp3")
    ∧ (speechToSpeech { elevenApiKey := some "k", xiApiKey := none } ⟨[], []⟩
        { filePath := some "uploads/a.webm", voice := some "Rachel" }
        (fun _ _ _ => .ok [7]) 5).1.audioUrl
      = some ("audios/" ++ artifactFilename "s2s" 5 "mp3") :=
  C6_audioUrl_shape { elevenApiKey := some "k", xiApiKey := none } ⟨[], []⟩
    { text := some "oi", voice := none } (fun _ => .ok [])
    (fun _ _ _ => .ok (.complete [[1]]))
    { filePath := some "uploads/a.webm", voice := some "Rachel" }
    (fun _ _ _ => .ok [7]) 5 rfl rfl

/-- C4: the sanitizer maps every character outside `[A-Za-z0-9_-]` to `_`
(`"My Project!"` becomes `"My_Project_"`); when the sanitized folder already
exists the handler answers with the distinct "Projeto já existe." signal and
touches nothing, and when it does not exist it creates exactly that folder. -/
theorem C4_createProject_sanitize_and_exists (fs fs2 : FS) (pn : String)
    (hpn : jsFalsy (some pn) = false)
    (hex : fs.existsSync (PUBLIC_DIR ++ "/" ++ sanitizeName pn) = true)
    (hex2 : fs2.existsSync "public/My_Project_" = false) :
    sanitizeName "My Project!" = "My_Project_"
    ∧ createProject fs (some pn) = ({ status := 200, message := some "Projeto já existe." }, fs)
    ∧ createProject fs2 (some "My Project!")
        = ({ status := 200,
             message := some ("Pasta do projeto \x27" ++ "My Project!" ++
               "\x27 criada com sucesso!") },
           fs2.mkdirRec "public/My_Project_") := by
  have hs : sanitizeName "My Project!" = "My_Project_" := by decide
  have hp : PUBLIC_DIR ++ "/" ++ sanitizeName "My Project!" = "public/My_Project_" := by decide
  refine ⟨hs, ?_, ?_⟩
  · simp [createProject, hpn, hex]
  · have hf : jsFalsy (some "My Project!") = false := by decide
    simp [createProject, hf, hp, hex2]

/-- C4 witness: a state where `public/My_Project_` exists, and an empty state
where it does not. -/
theorem C4_createProject_sanitize_and_exists_witness :
    sanitizeName "My Project!" = "My_Project_"
    ∧ createProject ⟨[], ["public", "public/My_Project_"]⟩ (some "My Project!")
        = ({ status := 200, message := some "Projeto já existe." },
           ⟨[], ["public", "public/My_Project_"]⟩)
    ∧ createProject ⟨[], ["public"]⟩ (some "My Project!")
        = ({ status := 200,
             message := some ("Pasta do projeto \x27" ++ "My Project!" ++
               "\x27 criada com sucesso!") },
           FS.mkdirRec ⟨[], ["public"]⟩ "public/My_Project_") :=
  C4_createProject_sanitize_and_exists ⟨[], ["public", "public/My_Project_"]⟩ ⟨[], ["public"]⟩
    "My Project!" (by decide) (by decide) (by decide)

/-- C9 counterexample: the claim says a deletion failure is LOGGED; the code's
`catch (e) {}` (src/server.js:129) is empty, so here the temp file is absent
(unlink throws `ENOENT`), the request still succeeds, and the emitted log is
empty — the failure was not logged. -/
theorem C9_unlogged_deletion_failure :
    ((⟨[], []⟩ : FS).files.lookup "uploads/t.webm" = none)
    ∧ (speechToSpeech { elevenApiKey := some "k", xiApiKey := none } ⟨[], []⟩
        { filePath := some "uploads/t.webm", voice := some "Rachel" }
        (fun _ _ _ => .ok [7]) 3).2.2 = []
    ∧ (speechToSpeech { elevenApiKey := some "k", xiApiKey := none } ⟨[], []⟩
        { filePath := some "uploads/t.webm", voice := some "Rachel" }
        (fun _ _ _ => .ok [7]) 3).1.ok = true := ⟨rfl, rfl, rfl⟩

/-- C9 (amended): a deletion failure of the temporary upload is silently
swallowed — never escalated and NOT logged: the route still answers 200 with
the audioUrl, the state is exactly the post-save state (the failed unlink
changed nothing), and no log message is emitted. -/
theorem C9_unlink_failure_swallowed (env : Env) (fs : FS) (inputPath voice : String)
    (bytes : List Byte)
    (post : Option String → String → String → Except String (List Byte)) (now : Nat)
    (hv : (voice == "") = false)
    (hk : jsFalsy (elevenKey env) = false)
    (hpost : post (elevenKey env) voice inputPath = .ok bytes)
    (hmiss : ((saveBufferToPublic fs bytes (artifactFilename "s2s" now "mp3")).1.files.lookup
        inputPath) = none) :
    speechToSpeech env fs { filePath := some inputPath, voice := some voice } post now
      = ({ status := 200, ok := true,
           audioUrl := some ("audios/" ++ artifactFilename "s2s" now "mp3") },
         (saveBufferToPublic fs bytes (artifactFilename "s2s" now "mp3")).1, []) := by
  have hv2 : jsFalsy (some voice) = false := by simp [jsFalsy, hv]
  simp only [saveBufferToPublic] at hmiss
  simp [speechToSpeech, hv2, hk, hpost, FS.unlink, hmiss, saveBufferToPublic]

/-- C9 witness: concrete failing unlink, swallowed. -/
theorem C9_unlink_failure_swallowed_witness :
    speechToSpeech { elevenApiKey := some "k", xiApiKey := none } ⟨[], []⟩
        { filePath := some "uploads/t.webm", voice := some "Rachel" }
        (fun _ _ _ => .ok [7]) 3
      = ({ status := 200, ok := true,
           audioUrl := some ("audios/" ++ artifactFilename "s2s" 3 "mp3") },
         (saveBufferToPublic ⟨[], []⟩ [7] (artifactFilename "s2s" 3 "mp3")).1, []) :=
  C9_unlink_failure_swallowed { elevenApiKey := some "k", xiApiKey := none } ⟨[], []⟩
    "uploads/t.webm" "Rachel" [7] (fun _ _ _ => .ok [7]) 3
    (by decide) (by decide) rfl (by decide)

/-- Sanitizing a character always lands in the allowed class. -/
theorem isAllowedChar_sanitized (c : Char) :
    isAllowedChar (if isAllowedChar c then c else '_') = true := by
  by_cases h : isAllowedChar c = true
  · rwa [if_pos h]
  · rw [if_neg h]
    decide

/-- C10: the sanitized project name consists only of `[A-Za-z0-9_-]`
characters — in particular it contains no `/`, no `\` and no `.` — and a
non-empty input stays non-empty and is neither `.` nor `..`, so
`path.join(PUBLIC_DIR, sanitized)` is always an immediate child of the
public store root and cannot traverse outside it. -/
theorem C10_sanitized_no_traversal (s : String) (hs : s ≠ "") :
    ((sanitizeName s).data.all isAllowedChar = true)
    ∧ '/' ∉ (sanitizeName s).data
    ∧ '\\' ∉ (sanitizeName s).data
    ∧ '.' ∉ (sanitizeName s).data
    ∧ sanitizeName s ≠ ""
    ∧ sanitizeName s ≠ "."
    ∧ sanitizeName s ≠ ".." := by
  have hall : ((sanitizeName s).data.all isAllowedChar = true) := by
    rw [sanitizeName, List.all_map, List.all_eq_true]
    intro c _
    exact isAllowedChar_sanitized c
  have hnot : ∀ c : Char, isAllowedChar c = false → c ∉ (sanitizeName s).data := by
    intro c hc hmem
    have hcm := List.all_eq_true.mp hall c hmem
    rw [hc] at hcm
    cases hcm
  have hne : sanitizeName s ≠ "" := by
    intro h
    apply hs
    have hd : s.data.map (fun c => if isAllowedChar c then c else '_') = [] :=
      congrArg String.data h
    have hnil : s.data = [] := List.map_eq_nil_iff.mp hd
    obtain ⟨l⟩ := s
    rw [show l = [] from hnil]
  refine ⟨hall, hnot '/' (by decide), hnot '\\' (by decide), hnot '.' (by decide), hne, ?_, ?_⟩
  · intro h
    exact hnot '.' (by decide) (by rw [h]; decide)
  · intro h
    exact hnot '.' (by decide) (by rw [h]; decide)

/-- C10 witness: a name attempting path traversal. -/
theorem C10_sanitized_no_traversal_witness :
    ((sanitizeName "../a/b").data.all isAllowedChar = true)
    ∧ '/' ∉ (sanitizeName "../a/b").data
    ∧ '\\' ∉ (sanitizeName "../a/b").data
    ∧ '.' ∉ (sanitizeName "../a/b").data
    ∧ sanitizeName "../a/b" ≠ ""
    ∧ sanitizeName "../a/b" ≠ "."
    ∧ sanitizeName "../a/b" ≠ ".." :=
  C10_sanitized_no_traversal "../a/b" (by decide)

end LocGen
